import Mathlib

/-!
Shallow embedding of the Venuu event-discovery app core
(src/src/ts/api.ts and the compiled controller in src/unnamed/part_004):
the time-bounded event cache with primary/fallback fetch, the
filter/search engine, date sorting, and the local-storage-backed
user-preferences store. Machine-level JS behaviours (string truthiness,
NaN date comparisons, comparator-NaN-to-zero in Array.prototype.sort)
are embedded explicitly.
-/

namespace Venuu

/-! ## JS string primitives -/

/-- JS String.prototype.toLowerCase, modelled character-wise. -/
def jsToLower (s : String) : String :=
  ⟨s.toList.map Char.toLower⟩

/-- Does the list start with the given pattern? -/
def listStartsWith : List Char → List Char → Bool
  | _, [] => true
  | [], _ :: _ => false
  | a :: as, b :: bs => a == b && listStartsWith as bs

/-- Does the list contain the pattern as a contiguous run? -/
def listHasRun (pat : List Char) : List Char → Bool
  | [] => listStartsWith [] pat
  | c :: cs => listStartsWith (c :: cs) pat || listHasRun pat cs

/-- JS String.prototype.includes: substring containment. -/
def jsIncludes (s pat : String) : Bool :=
  listHasRun pat.toList s.toList

/-- JS String.prototype.trim: strip leading/trailing whitespace. -/
def jsTrim (s : String) : String :=
  ⟨(s.toList.dropWhile Char.isWhitespace).reverse.dropWhile Char.isWhitespace |>.reverse⟩

/-- JS a || b on a possibly-absent string a: a is kept when truthy
(present and non-empty), else b. -/
def jsOrStr (a : Option String) (b : String) : String :=
  match a with
  | some s => if s = "" then b else s
  | none => b

/-! ## Event data model (src/src/ts/types.ts VenuuEvent, runtime shape) -/

/-- Nested language.en sub-object. -/
structure EnLang where
  title : Option String := none
  description : Option String := none
  place : Option String := none
deriving DecidableEq, Repr

/-- language sub-object. -/
structure LangField where
  en : Option EnLang := none
deriving DecidableEq, Repr

/-- Runtime shape of the category field: the code checks
Array.isArray(event.category) and otherwise treats it as a string
(or absent), so the embedding is a sum. -/
inductive CategoryField where
  | missing : CategoryField
  | str : String → CategoryField
  | list : List String → CategoryField
deriving DecidableEq, Repr

/-- Event record. Fields the engine reads, all optional except id
(presentational fields such as images and price are not consulted by
any embedded operation and are omitted). -/
structure VenuuEvent where
  id : String
  title : Option String := none
  title_en : Option String := none
  language : Option LangField := none
  start : Option String := none
  date : Option String := none
  location : Option String := none
  formatted_address : Option String := none
  city : Option String := none
  category : CategoryField := .missing
  event_category : Option String := none
  description : Option String := none
deriving DecidableEq, Repr

/-! ## Field resolution (src/src/ts/api.ts lines 162-181, 210) -/

/-- Title resolution: event.title || event.title_en ||
(event.language && event.language.en && event.language.en.title) || "". -/
def resolveTitle (e : VenuuEvent) : String :=
  jsOrStr e.title (jsOrStr e.title_en
    (jsOrStr ((e.language.bind (·.en)).bind (·.title)) ""))

/-- Location resolution: event.location || event.formatted_address ||
event.city || (event.language && event.language.en && event.language.en.place) || "". -/
def resolveLocation (e : VenuuEvent) : String :=
  jsOrStr e.location (jsOrStr e.formatted_address (jsOrStr e.city
    (jsOrStr ((e.language.bind (·.en)).bind (·.place)) "")))

/-- Category resolution: Array.isArray(event.category) ? event.category
: [event.category || event.event_category || ""]. -/
def resolveCategories (e : VenuuEvent) : List String :=
  match e.category with
  | .list l => l
  | .str s => [jsOrStr (some s) (jsOrStr e.event_category "")]
  | .missing => [jsOrStr e.event_category ""]

/-- Date-string resolution: event.start || event.date || "". -/
def resolveDateStr (e : VenuuEvent) : String :=
  jsOrStr e.start (jsOrStr e.date "")

/-! ## Search engine (src/src/ts/api.ts searchEvents, lines 159-229)

Date parsing (the host's new Date(s).getTime()) is a host-runtime
service; the engine is parameterised over it. A result of none models
an Invalid Date (getTime() = NaN); some t models a finite timestamp. -/

/-- Search parameters; an empty string models an absent (falsy) field,
exactly as the code's truthiness guards treat it. -/
structure SearchParams where
  query : String := ""
  category : String := ""
  location : String := ""
  startDate : String := ""
  endDate : String := ""
deriving DecidableEq, Repr

/-- JS less-than on two Date values: any comparison involving NaN is false. -/
def dateLt (a b : Option Int) : Bool :=
  match a, b with
  | some x, some y => x < y
  | _, _ => false

/-- JS greater-than on two Date values: any comparison involving NaN is false. -/
def dateGt (a b : Option Int) : Bool :=
  match a, b with
  | some x, some y => y < x
  | _, _ => false

/-- Text-match disjunction of searchEvents (lines 186-191): query is
already lowercased; description contributes only when present (truthy guard). -/
def matchesText (q : String) (e : VenuuEvent) : Bool :=
  jsIncludes (jsToLower (resolveTitle e)) q ||
    (match e.description with
     | some d => jsIncludes (jsToLower d) q
     | none => false) ||
    jsIncludes (jsToLower (resolveLocation e)) q ||
    (resolveCategories e).any (fun cat => jsIncludes (jsToLower cat) q)

/-- The filter callback of searchEvents: each early return false is a
branch, mirroring lines 162-228. -/
def keepEvent (parseDate : String → Option Int) (p : SearchParams)
    (e : VenuuEvent) : Bool :=
  if p.query ≠ "" && !(matchesText (jsToLower p.query) e) then false
  else if p.category ≠ "" && !((resolveCategories e).contains p.category) then false
  else if p.location ≠ "" && resolveLocation e ≠ p.location then false
  else if (p.startDate ≠ "" || p.endDate ≠ "") &&
      ((p.startDate ≠ "" && dateLt (parseDate (resolveDateStr e)) (parseDate p.startDate)) ||
       (p.endDate ≠ "" && dateGt (parseDate (resolveDateStr e)) (parseDate p.endDate))) then false
  else true

/-- searchEvents: filter the loaded list by the callback. -/
def searchEvents (parseDate : String → Option Int) (p : SearchParams)
    (events : List VenuuEvent) : List VenuuEvent :=
  events.filter (keepEvent parseDate p)

/-- getEventById (lines 151-154): first event whose id equals the argument. -/
def getEventById (events : List VenuuEvent) (eventId : String) : Option VenuuEvent :=
  events.find? (fun event => event.id == eventId)

/-! ## Date sort (src/unnamed/part_004 applyFilters, date branch)

The comparator computes dateA.getTime() - dateB.getTime() (or the
reverse for descending); when either side is NaN the comparator value
is NaN and ECMAScript SortCompare coerces it to +0. Array.prototype.sort
is stable, modelled by a stable merge sort. -/

/-- The date-branch comparator value, with NaN coerced to 0. -/
def dateCmp (parseDate : String → Option Int) (asc : Bool)
    (a b : VenuuEvent) : Int :=
  match parseDate (resolveDateStr a), parseDate (resolveDateStr b) with
  | some x, some y => if asc then x - y else y - x
  | _, _ => 0

/-- Sort the list by the date comparator. Array.prototype.sort is
stable; a stable structural sort (insertion sort, inserting before the
first element the comparator does not place strictly earlier) models it. -/
def sortEventsByDate (parseDate : String → Option Int) (asc : Bool)
    (events : List VenuuEvent) : List VenuuEvent :=
  events.insertionSort (fun a b => dateCmp parseDate asc a b ≤ 0)

/-! ## Time-bounded cache (src/src/ts/api.ts EventsApi.getEvents, lines 106-146)

Instance state is (eventsCache, lastFetch); the network is an
environment giving each fetch's outcome (none models a throw or
non-ok response). The returned trace lists the fetch attempts made,
in order, so I/O side effects are observable in theorems. -/

/-- EventsApi instance state: eventsCache starts at null, lastFetch at 0. -/
structure CacheState where
  eventsCache : Option (List VenuuEvent)
  lastFetch : Int
deriving DecidableEq, Repr

/-- The fresh EventsApi instance. -/
def initialCacheState : CacheState :=
  { eventsCache := none, lastFetch := 0 }

/-- Outcomes the host network delivers during one call: the GET to
/api/events and the fetch of ./api-data.json. -/
structure FetchEnv where
  primaryResult : Option (List VenuuEvent)
  fallbackResult : Option (List VenuuEvent)

/-- Which endpoint a fetch attempt targeted. -/
inductive FetchAttempt where
  | primary : FetchAttempt
  | fallback : FetchAttempt
deriving DecidableEq, Repr

/-- this.cacheExpiry = 5 * 60 * 1000. -/
def cacheExpiry : Int := 5 * 60 * 1000

/-- getEvents: serve the cache when present and fresh; otherwise try
the primary endpoint, then the local fallback file, storing list and
timestamp on success; throw when both fail. The third component is
the ordered trace of fetch attempts. -/
def getEvents (now : Int) (env : FetchEnv) (s : CacheState) :
    Except String (List VenuuEvent) × CacheState × List FetchAttempt :=
  if s.eventsCache.isSome ∧ now - s.lastFetch < cacheExpiry then
    (Except.ok (s.eventsCache.getD []), s, [])
  else
    match env.primaryResult with
    | some events =>
        (Except.ok events, { eventsCache := some events, lastFetch := now },
          [FetchAttempt.primary])
    | none =>
        match env.fallbackResult with
        | some events =>
            (Except.ok events, { eventsCache := some events, lastFetch := now },
              [FetchAttempt.primary, FetchAttempt.fallback])
        | none =>
            (Except.error "Unable to load events data", s,
              [FetchAttempt.primary, FetchAttempt.fallback])

/-! ## User preferences store (src/src/ts/api.ts UserPreferencesApi, lines 333-435)

The local-storage entry under "venuu-preferences" is modelled by
StoredPrefs: absent (no entry, or an empty/falsy string), malformed
(JSON.parse throws), readError (getItem itself throws), or a parsed
JSON object whose recognised keys are each optionally present. -/

/-- In-memory preferences blob. -/
structure UserPreferences where
  favorites : List String
  theme : String
  language : String
  notifications : Bool
  searchHistory : List String
deriving DecidableEq, Repr

/-- The defaultPrefs literal of getPreferences. -/
def defaultPrefs : UserPreferences :=
  { favorites := [], theme := "light", language := "en",
    notifications := true, searchHistory := [] }

/-- A stored JSON object: each recognised key optionally present. -/
structure StoredBlob where
  favorites : Option (List String) := none
  theme : Option String := none
  language : Option String := none
  notifications : Option Bool := none
  searchHistory : Option (List String) := none
deriving DecidableEq, Repr

/-- State of the venuu-preferences local-storage entry. -/
inductive StoredPrefs where
  | absent : StoredPrefs
  | malformed : StoredPrefs
  | readError : StoredPrefs
  | blob : StoredBlob → StoredPrefs
deriving DecidableEq, Repr

/-- getPreferences: spread-merge the parsed blob over the defaults;
any caught error (parse failure, storage read failure) falls back to
the defaults. -/
def getPreferences (s : StoredPrefs) : UserPreferences :=
  match s with
  | .absent => defaultPrefs
  | .malformed => defaultPrefs
  | .readError => defaultPrefs
  | .blob b =>
      { favorites := b.favorites.getD defaultPrefs.favorites,
        theme := b.theme.getD defaultPrefs.theme,
        language := b.language.getD defaultPrefs.language,
        notifications := b.notifications.getD defaultPrefs.notifications,
        searchHistory := b.searchHistory.getD defaultPrefs.searchHistory }

/-- JSON.stringify of a full blob stores every key. -/
def writeStored (p : UserPreferences) : StoredPrefs :=
  .blob { favorites := some p.favorites, theme := some p.theme,
          language := some p.language, notifications := some p.notifications,
          searchHistory := some p.searchHistory }

/-- savePreferences applied to a full blob: merge over current (a
full blob overrides every key) and persist. -/
def savePreferences (p : UserPreferences) (_s : StoredPrefs) : StoredPrefs :=
  writeStored p

/-- addToFavorites: push and save only when the id is not yet a favorite. -/
def addToFavorites (eventId : String) (s : StoredPrefs) : StoredPrefs :=
  let prefs := getPreferences s
  if prefs.favorites.contains eventId then s
  else savePreferences { prefs with favorites := prefs.favorites ++ [eventId] } s

/-- removeFromFavorites: filter the id out and save. -/
def removeFromFavorites (eventId : String) (s : StoredPrefs) : StoredPrefs :=
  let prefs := getPreferences s
  savePreferences { prefs with favorites := prefs.favorites.filter (· ≠ eventId) } s

/-- getFavorites. -/
def getFavorites (s : StoredPrefs) : List String :=
  (getPreferences s).favorites

/-- addSearchToHistory: no-op on a blank query; otherwise drop equal
entries, prepend, keep the first 10, save. -/
def addSearchToHistory (query : String) (s : StoredPrefs) : StoredPrefs :=
  if jsTrim query = "" then s
  else
    let prefs := getPreferences s
    let history := prefs.searchHistory.filter (· ≠ query)
    savePreferences { prefs with searchHistory := (query :: history).take 10 } s

/-- getSearchHistory. -/
def getSearchHistory (s : StoredPrefs) : List String :=
  (getPreferences s).searchHistory

/-! ## Spec-side definitions

These follow the specification's words, to be compared with the
definitions extracted from the source. -/

/-- First non-empty value of a fallback chain, else the empty string. -/
def firstNonEmpty : List (Option String) → String
  | [] => ""
  | o :: rest =>
      match o with
      | some s => if s = "" then firstNonEmpty rest else s
      | none => firstNonEmpty rest

/-- Spec title chain: title, then title_en, then language.en.title, then empty. -/
def specTitle (e : VenuuEvent) : String :=
  firstNonEmpty [e.title, e.title_en, (e.language.bind (·.en)).bind (·.title)]

/-- Spec location chain: location, formatted_address, city,
language.en.place, then empty. -/
def specLocation (e : VenuuEvent) : String :=
  firstNonEmpty [e.location, e.formatted_address, e.city,
    (e.language.bind (·.en)).bind (·.place)]

/-- Spec category list: the list itself when category is a list,
otherwise the one-element list from category, then event_category,
then empty string (an empty string is kept as an entry). -/
def specCategories (e : VenuuEvent) : List String :=
  match e.category with
  | .list l => l
  | .str s => [firstNonEmpty [some s, e.event_category]]
  | .missing => [firstNonEmpty [e.event_category]]

/-- Spec text match: the query is a case-insensitive substring of the
resolved title, the description, the resolved location, or some
resolved category. -/
def specTextMatch (q : String) (e : VenuuEvent) : Bool :=
  jsIncludes (jsToLower (specTitle e)) (jsToLower q) ||
    jsIncludes (jsToLower (jsOrStr e.description "")) (jsToLower q) ||
    jsIncludes (jsToLower (specLocation e)) (jsToLower q) ||
    (specCategories e).any (fun cat => jsIncludes (jsToLower cat) (jsToLower q))

/-- Spec default preferences blob: empty favorites, theme light,
language en, notifications on, empty search history. -/
def specDefaultBlob : UserPreferences :=
  { favorites := [], theme := "light", language := "en",
    notifications := true, searchHistory := [] }

/-- Spec shallow merge: each key stored in the blob overrides the
corresponding default, key by key. -/
def specShallowMerge (b : StoredBlob) : UserPreferences :=
  { favorites := b.favorites.getD specDefaultBlob.favorites,
    theme := b.theme.getD specDefaultBlob.theme,
    language := b.language.getD specDefaultBlob.language,
    notifications := b.notifications.getD specDefaultBlob.notifications,
    searchHistory := b.searchHistory.getD specDefaultBlob.searchHistory }

/-! ## Shared helper lemmas -/

/-- Reading back a just-written full blob yields the written preferences. -/
theorem getPreferences_writeStored (p : UserPreferences) :
    getPreferences (writeStored p) = p := rfl

/-! ## C8: defaults on absent/malformed storage, shallow merge otherwise -/

/-- C8: when the stored entry is absent, malformed, or the read itself
errors, getPreferences returns the documented default blob (and, being a
total function, throws nothing); a stored blob's keys shallowly override
the defaults key-by-key. -/
theorem C8_getPreferences_defaults_and_merge :
    (getPreferences StoredPrefs.absent = specDefaultBlob ∧
     getPreferences StoredPrefs.malformed = specDefaultBlob ∧
     getPreferences StoredPrefs.readError = specDefaultBlob) ∧
    ∀ b : StoredBlob, getPreferences (StoredPrefs.blob b) = specShallowMerge b :=
  ⟨⟨rfl, rfl, rfl⟩, fun _ => rfl⟩

/-! ## C7: favorites set semantics -/

/-- C7: adding a favorite twice equals adding it once; removing a
non-member leaves the favorites unchanged; after a removal the id is
not a favorite. -/
theorem C7_favorites_set_semantics (s : StoredPrefs) (eventId : String) :
    addToFavorites eventId (addToFavorites eventId s) = addToFavorites eventId s ∧
    (eventId ∉ getFavorites s →
      getFavorites (removeFromFavorites eventId s) = getFavorites s) ∧
    eventId ∉ getFavorites (removeFromFavorites eventId s) := by
  refine ⟨?_, ?_, ?_⟩
  · by_cases hm : eventId ∈ (getPreferences s).favorites
    · have h1 : addToFavorites eventId s = s := by
        simp [addToFavorites, hm]
      rw [h1]
      exact h1
    · have h1 : addToFavorites eventId s =
          writeStored { getPreferences s with
            favorites := (getPreferences s).favorites ++ [eventId] } := by
        simp [addToFavorites, hm, savePreferences]
      rw [h1]
      simp [addToFavorites, getPreferences_writeStored]
  · intro h
    have hfil : (getPreferences s).favorites.filter (· ≠ eventId) =
        (getPreferences s).favorites := by
      apply List.filter_eq_self.mpr
      intro a ha
      simp only [ne_eq, decide_eq_true_eq]
      exact fun hax => h (hax ▸ ha)
    simp [removeFromFavorites, getFavorites, savePreferences,
      getPreferences_writeStored, hfil]
    intro a ha hax
    exact h (hax ▸ ha)
  · simp [removeFromFavorites, getFavorites, savePreferences,
      getPreferences_writeStored, List.mem_filter]

/-- C7 witness at a concrete state and id. -/
theorem C7_favorites_set_semantics_witness :
    getFavorites (removeFromFavorites "x" StoredPrefs.absent) =
      getFavorites StoredPrefs.absent :=
  (C7_favorites_set_semantics StoredPrefs.absent "x").2.1 (by decide)

/-! ## C6: search history -/

/-- C6: addSearchToHistory is a no-op on a blank query; otherwise the
new history is the query consed onto the old history purged of equal
entries, truncated to 10, so it has length at most 10, holds the query
exactly once at the front, and stays duplicate-free. -/
theorem C6_addSearchToHistory_spec (s : StoredPrefs) (q : String) :
    (jsTrim q = "" → addSearchToHistory q s = s) ∧
    (jsTrim q ≠ "" →
      getSearchHistory (addSearchToHistory q s) =
        (q :: (getSearchHistory s).filter (· ≠ q)).take 10 ∧
      (getSearchHistory (addSearchToHistory q s)).length ≤ 10 ∧
      (getSearchHistory (addSearchToHistory q s)).count q = 1 ∧
      (getSearchHistory (addSearchToHistory q s)).head? = some q ∧
      ((getSearchHistory s).Nodup → (getSearchHistory (addSearchToHistory q s)).Nodup)) := by
  constructor
  · intro h
    simp [addSearchToHistory, h]
  · intro h
    have hq : q ∉ (getSearchHistory s).filter (· ≠ q) := by
      intro hmem
      simp [List.mem_filter] at hmem
    have hist_eq : getSearchHistory (addSearchToHistory q s) =
        (q :: (getSearchHistory s).filter (· ≠ q)).take 10 := by
      simp [addSearchToHistory, h, getSearchHistory, savePreferences,
        getPreferences_writeStored]
    have htake : (q :: (getSearchHistory s).filter (· ≠ q)).take 10 =
        q :: ((getSearchHistory s).filter (· ≠ q)).take 9 := rfl
    refine ⟨hist_eq, ?_, ?_, ?_, ?_⟩
    · rw [hist_eq]
      exact List.length_take_le _ _
    · rw [hist_eq, htake]
      have hz : (((getSearchHistory s).filter (· ≠ q)).take 9).count q = 0 := by
        apply List.count_eq_zero.mpr
        intro hm
        exact hq (List.take_subset _ _ hm)
      rw [List.count_cons_self, hz]
    · rw [hist_eq, htake]
      rfl
    · intro hnd
      rw [hist_eq]
      have h1 : (q :: (getSearchHistory s).filter (· ≠ q)).Nodup :=
        List.nodup_cons.mpr ⟨hq, hnd.filter _⟩
      exact h1.sublist (List.take_sublist _ _)

/-- C6 witness at a concrete state and query. -/
theorem C6_addSearchToHistory_witness :
    (getSearchHistory (addSearchToHistory "reykjavik" StoredPrefs.absent)).count
      "reykjavik" = 1 :=
  ((C6_addSearchToHistory_spec StoredPrefs.absent "reykjavik").2 (by decide)).2.2.1

/-! ## C10: lookup by id -/

/-- C10: getEventById returns none, rather than an error, when no event
carries the id, and otherwise returns the first event in order whose id
matches. -/
theorem C10_getEventById_spec (events : List VenuuEvent) (eventId : String) :
    ((∀ e ∈ events, e.id ≠ eventId) → getEventById events eventId = none) ∧
    (∀ e, getEventById events eventId = some e →
      e.id = eventId ∧
      ∃ pre post, events = pre ++ e :: post ∧ ∀ x ∈ pre, x.id ≠ eventId) := by
  induction events with
  | nil =>
      refine ⟨fun _ => rfl, fun e he => ?_⟩
      simp [getEventById] at he
  | cons a as ih =>
      constructor
      · intro h
        have ha : (a.id == eventId) = false := by
          simpa using h a (List.mem_cons_self a as)
        unfold getEventById
        rw [List.find?_cons, ha]
        exact ih.1 fun e he => h e (List.mem_cons_of_mem _ he)
      · intro e he
        unfold getEventById at he
        rw [List.find?_cons] at he
        cases hb : (a.id == eventId) with
        | true =>
          rw [hb] at he
          simp only [] at he
          have hae : a = e := by
            injection he
          subst hae
          exact ⟨by simpa using hb, [], as, rfl, by simp⟩
        | false =>
          rw [hb] at he
          simp only [] at he
          obtain ⟨hid, pre, post, heq, hpre⟩ := ih.2 e he
          refine ⟨hid, a :: pre, post, by simp [heq], ?_⟩
          intro x hx
          rcases List.mem_cons.mp hx with hxa | hxp
          · subst hxa
            simpa using hb
          · exact hpre x hxp

/-- C10 witness: a concrete miss returns none. -/
theorem C10_getEventById_witness :
    getEventById [{ id := "a" }] "b" = none :=
  (C10_getEventById_spec [{ id := "a" }] "b").1 (by decide)

/-! ## C1: cache freshness window -/

/-- C1: the freshness window is 300000 ms; with a stored list and a
read strictly inside the window, getEvents returns the stored list,
leaves the state alone, and performs no fetch; at or past the window,
or before any successful fetch, it makes exactly one attempt against
the primary endpoint. -/
theorem C1_cache_window (t : Int) (env : FetchEnv) (s : CacheState) :
    cacheExpiry = 300000 ∧
    (∀ L, s.eventsCache = some L → t - s.lastFetch < 300000 →
      getEvents t env s = (Except.ok L, s, [])) ∧
    ((300000 ≤ t - s.lastFetch ∨ s.eventsCache = none) →
      ((getEvents t env s).2.2).count FetchAttempt.primary = 1) := by
  refine ⟨rfl, ?_, ?_⟩
  · intro L hL hlt
    have hcond : s.eventsCache.isSome ∧ t - s.lastFetch < cacheExpiry :=
      ⟨by simp [hL], hlt⟩
    rw [getEvents, if_pos hcond, hL]
    rfl
  · intro h
    have hcond : ¬(s.eventsCache.isSome ∧ t - s.lastFetch < cacheExpiry) := by
      rcases h with h | h
      · exact fun hc => absurd hc.2 (not_lt.mpr h)
      · exact fun hc => by
          rw [h] at hc
          exact absurd hc.1 (by simp)
    rw [getEvents, if_neg hcond]
    cases hp : env.primaryResult with
    | some events => rfl
    | none =>
        cases hf : env.fallbackResult with
        | some events => rfl
        | none => rfl

/-- C1 witness: a fresh read 299999 ms after a fetch at 0 returns the
cached list with an empty fetch trace. -/
theorem C1_cache_window_witness :
    getEvents 299999 ⟨none, none⟩ ⟨some [], 0⟩ =
      (Except.ok [], ⟨some [], 0⟩, []) :=
  (C1_cache_window 299999 ⟨none, none⟩ ⟨some [], 0⟩).2.1 [] rfl (by decide)

/-! ## C3: a failed refresh never harms the cache -/

/-- C3: on a cache miss where both the primary and the fallback fetch
fail, getEvents raises the single data-unavailable error and returns
the state exactly as it was. -/
theorem C3_failed_refresh_preserves_cache (t : Int) (env : FetchEnv)
    (s : CacheState)
    (hmiss : ¬(s.eventsCache.isSome ∧ t - s.lastFetch < cacheExpiry))
    (hp : env.primaryResult = none) (hf : env.fallbackResult = none) :
    getEvents t env s = (Except.error "Unable to load events data", s,
      [FetchAttempt.primary, FetchAttempt.fallback]) := by
  rw [getEvents, if_neg hmiss]
  rw [hp, hf]

/-- C3 witness: a concrete expired cache survives a doubly-failed refresh. -/
theorem C3_failed_refresh_witness :
    getEvents 300000 ⟨none, none⟩ ⟨some [], 0⟩ =
      (Except.error "Unable to load events data", ⟨some [], 0⟩,
        [FetchAttempt.primary, FetchAttempt.fallback]) :=
  C3_failed_refresh_preserves_cache 300000 ⟨none, none⟩ ⟨some [], 0⟩
    (by decide) rfl rfl

/-! ## C9: fetch attempts on a cache miss

The claim that exactly one of the two fetches occurs per cache-miss
call is refuted: when the primary fails, the code attempts the
fallback as well, so both attempts occur in that call. What holds is
that the primary is always attempted exactly once and first, and the
fallback exactly once afterwards iff the primary failed. -/

/-- C9 counterexample: a cache-miss call in which the primary fails
performs both fetch attempts (the fallback as well), so it is not the
case that exactly one of the two occurs. -/
theorem C9_exactly_one_counterexample :
    ¬((FetchAttempt.primary ∈ (getEvents 0 ⟨none, none⟩ initialCacheState).2.2 ∧
        FetchAttempt.fallback ∉ (getEvents 0 ⟨none, none⟩ initialCacheState).2.2) ∨
      (FetchAttempt.fallback ∈ (getEvents 0 ⟨none, none⟩ initialCacheState).2.2 ∧
        FetchAttempt.primary ∉ (getEvents 0 ⟨none, none⟩ initialCacheState).2.2)) := by
  decide

/-- C9 amended: on every cache-miss call the primary fetch is attempted
exactly once and first; the fallback is attempted, once and only after
the primary, exactly when the primary fails — never before it and never
when the primary succeeds. -/
theorem C9_fallback_after_primary (t : Int) (env : FetchEnv) (s : CacheState)
    (hmiss : ¬(s.eventsCache.isSome ∧ t - s.lastFetch < cacheExpiry)) :
    (getEvents t env s).2.2 =
      (if env.primaryResult.isSome then [FetchAttempt.primary]
       else [FetchAttempt.primary, FetchAttempt.fallback]) := by
  rw [getEvents, if_neg hmiss]
  cases hp : env.primaryResult with
  | some events => rfl
  | none =>
      cases hf : env.fallbackResult with
      | some events => rfl
      | none => rfl

/-- C9 witness: a concrete cache-miss call with a successful primary
fetch attempts only the primary. -/
theorem C9_fallback_after_primary_witness :
    (getEvents 0 ⟨some [], none⟩ initialCacheState).2.2 = [FetchAttempt.primary] :=
  C9_fallback_after_primary 0 ⟨some [], none⟩ initialCacheState (by decide)

/-! ## Bridging lemmas between the source resolvers and the spec chains -/

/-- A search for the empty pattern always succeeds. -/
theorem jsIncludes_empty_pat (s : String) : jsIncludes s "" = true := by
  unfold jsIncludes listHasRun
  cases s.toList with
  | nil => rfl
  | cons c cs => rfl

/-- The empty string contains no non-empty pattern. -/
theorem jsIncludes_empty_str (pat : String) (h : pat ≠ "") :
    jsIncludes "" pat = false := by
  unfold jsIncludes listHasRun listStartsWith
  cases hp : pat.toList with
  | nil =>
      exact absurd (by cases pat with
        | mk data => cases data with
          | nil => rfl
          | cons c cs => simp at hp) h
  | cons c cs => rfl

/-- Lowercasing preserves emptiness in both directions. -/
theorem jsToLower_eq_empty_iff (s : String) : jsToLower s = "" ↔ s = "" := by
  cases s with
  | mk data =>
      unfold jsToLower
      cases data with
      | nil => simp
      | cons c cs =>
          constructor
          · intro h
            have := congrArg String.data h
            simp at this
          · intro h
            have := congrArg String.data h
            simp at this

/-- The description disjunct with a present description. -/
theorem jsOrStr_some_empty (d : String) : jsOrStr (some d) "" = d := by
  show (if d = "" then "" else d) = d
  split
  next h => exact h.symm
  next => rfl

/-- Source title resolution agrees with the spec fallback chain. -/
theorem resolveTitle_eq_spec (e : VenuuEvent) : resolveTitle e = specTitle e := by
  unfold resolveTitle specTitle
  cases e.title with
  | none =>
      cases e.title_en with
      | none => cases ((e.language.bind (·.en)).bind (·.title)) <;>
          simp [jsOrStr, firstNonEmpty]
      | some t => simp [jsOrStr, firstNonEmpty]
  | some t => simp [jsOrStr, firstNonEmpty]

/-- Source location resolution agrees with the spec fallback chain. -/
theorem resolveLocation_eq_spec (e : VenuuEvent) :
    resolveLocation e = specLocation e := by
  unfold resolveLocation specLocation
  cases e.location with
  | none =>
      cases e.formatted_address with
      | none =>
          cases e.city with
          | none => cases ((e.language.bind (·.en)).bind (·.place)) <;>
              simp [jsOrStr, firstNonEmpty]
          | some c => simp [jsOrStr, firstNonEmpty]
      | some f => simp [jsOrStr, firstNonEmpty]
  | some l => simp [jsOrStr, firstNonEmpty]

/-- Source category resolution agrees with the spec rule. -/
theorem resolveCategories_eq_spec (e : VenuuEvent) :
    resolveCategories e = specCategories e := by
  unfold resolveCategories specCategories
  cases e.category with
  | missing => cases e.event_category <;> simp [jsOrStr, firstNonEmpty]
  | str s => cases e.event_category <;> simp [jsOrStr, firstNonEmpty]
  | list l => rfl

/-- The text-match disjunction of searchEvents agrees with the
spec-worded case-insensitive substring test. -/
theorem matchesText_eq_spec (q : String) (e : VenuuEvent) :
    matchesText (jsToLower q) e = specTextMatch q e := by
  by_cases hq0 : q = ""
  · subst hq0
    have hl : jsToLower "" = "" := rfl
    simp [matchesText, specTextMatch, hl, jsIncludes_empty_pat]
  · have hp : jsToLower q ≠ "" := fun h => hq0 ((jsToLower_eq_empty_iff q).mp h)
    unfold matchesText specTextMatch
    rw [resolveTitle_eq_spec, resolveLocation_eq_spec, resolveCategories_eq_spec]
    have h0 : jsToLower "" = "" := rfl
    cases hd : e.description with
    | none => simp [hd, jsOrStr, h0, jsIncludes_empty_str _ hp]
    | some d => simp [hd, jsOrStr_some_empty]

/-! ## C2: field resolution used by the engine -/

/-- C2: the engine's resolved title, location and category list are
exactly the spec fallback chains, and its text matching uses exactly
these resolved values. -/
theorem C2_field_resolution (e : VenuuEvent) (q : String) :
    resolveTitle e = specTitle e ∧ resolveLocation e = specLocation e ∧
    resolveCategories e = specCategories e ∧
    matchesText (jsToLower q) e = specTextMatch q e :=
  ⟨resolveTitle_eq_spec e, resolveLocation_eq_spec e,
   resolveCategories_eq_spec e, matchesText_eq_spec q e⟩

/-! ## C5: a text query only narrows -/

/-- With a non-empty query the keep predicate factors into the text
match and the query-free keep predicate. -/
theorem keepEvent_query_decomp (pd : String → Option Int) (p : SearchParams)
    (e : VenuuEvent) (hq : p.query ≠ "") :
    keepEvent pd p e =
      (matchesText (jsToLower p.query) e && keepEvent pd { p with query := "" } e) := by
  cases hm : matchesText (jsToLower p.query) e with
  | false => simp [keepEvent, hq, hm]
  | true => simp [keepEvent, hq, hm]

/-- C5: the records returned under any query are a subset of those
returned under the empty query, and a record passes a non-empty text
query exactly when the query is a case-insensitive substring of its
resolved title, description, resolved location, or some resolved
category (conjoined with the query-free filters). -/
theorem C5_query_narrows (pd : String → Option Int) (p : SearchParams)
    (E : List VenuuEvent) :
    searchEvents pd p E ⊆ searchEvents pd { p with query := "" } E ∧
    ∀ q e, q ≠ "" →
      keepEvent pd { p with query := q } e =
        (specTextMatch q e && keepEvent pd { p with query := "" } e) := by
  obtain ⟨pq, pc, pl, psd, ped⟩ := p
  constructor
  · apply List.Sublist.subset
    by_cases hq : pq = ""
    · subst hq
      exact List.Sublist.refl _
    · apply List.monotone_filter_right
      intro a ha
      rw [keepEvent_query_decomp pd _ a hq] at ha
      simp only [Bool.and_eq_true] at ha
      exact ha.2
  · intro q e hqne
    rw [keepEvent_query_decomp pd _ e hqne]
    rw [matchesText_eq_spec]

/-- C5 witness: concrete factorisation of the keep predicate. -/
theorem C5_query_narrows_witness :
    keepEvent (fun _ => none) { query := "x" } { id := "a" } =
      (specTextMatch "x" { id := "a" } &&
        keepEvent (fun _ => none) { query := "" } { id := "a" }) :=
  (C5_query_narrows (fun _ => none) {} []).2 "x" { id := "a" } (by decide)

/-! ## C4: unparsable dates in sorting and range filtering

The claim that an empty or unparsable resolved date acts as a
consistent "earliest" sentinel is refuted: new Date("").getTime() is
NaN, the comparator value involving it is NaN, and ECMAScript
SortCompare coerces NaN to +0, so such a record compares as EQUAL to
every other record. A stable sort therefore leaves it in its original
relative position — its final position depends on input order, not on
any sentinel value — and a lower date bound never excludes it. -/

/-- A concrete host date parser for counterexamples: one known
parsable date string, everything else an Invalid Date. -/
def testParseDate : String → Option Int :=
  fun s => if s = "2024-06-01" then some 100 else none

/-- Event with a parsable start date. -/
def evParsable : VenuuEvent := { id := "a", start := some "2024-06-01" }

/-- Event with no date fields, resolving to the empty string. -/
def evNoDate : VenuuEvent := { id := "u" }

/-- C4 counterexample: under ascending date sort the record without a
parsable date is NOT placed before the parsable-date record (no
earliest sentinel), and its output position tracks its input position
(no consistent position at all); a start-bound range filter keeps it
even though an "earliest" date would lie below the bound. -/
theorem C4_sentinel_counterexample :
    sortEventsByDate testParseDate true [evParsable, evNoDate] ≠
      [evNoDate, evParsable] ∧
    sortEventsByDate testParseDate true [evParsable, evNoDate] =
      [evParsable, evNoDate] ∧
    sortEventsByDate testParseDate true [evNoDate, evParsable] =
      [evNoDate, evParsable] ∧
    testParseDate (resolveDateStr evParsable) = some 100 ∧
    testParseDate (resolveDateStr evNoDate) = none ∧
    keepEvent testParseDate { startDate := "2024-06-01" } evNoDate = true := by
  decide

/-- C4 amended: sorting and range filtering on an empty or unparsable
resolved date are total (never throw); such a record compares as equal
to every record in both directions, the sort permutes its input, and a
date-range filter (with the other filters clear) never drops the
record. -/
theorem C4_invalid_date_total (pd : String → Option Int) (asc : Bool)
    (a b : VenuuEvent) (E : List VenuuEvent)
    (ha : pd (resolveDateStr a) = none) :
    dateCmp pd asc a b = 0 ∧ dateCmp pd asc b a = 0 ∧
    (sortEventsByDate pd asc E).Perm E ∧
    ∀ p : SearchParams, p.query = "" → p.category = "" → p.location = "" →
      keepEvent pd p a = true := by
  refine ⟨?_, ?_, ?_, ?_⟩
  · unfold dateCmp
    rw [ha]
  · unfold dateCmp
    rw [ha]
    cases pd (resolveDateStr b) <;> rfl
  · exact List.perm_insertionSort _ E
  · intro p hq hc hl
    simp [keepEvent, hq, hc, hl, ha, dateLt, dateGt]

/-- C4 amended-claim witness at a concrete record pair. -/
theorem C4_invalid_date_total_witness :
    dateCmp testParseDate true evNoDate evParsable = 0 :=
  (C4_invalid_date_total testParseDate true evNoDate evParsable []
    (by decide)).1

end Venuu

